import Mathlib

/-!
Verification of the node-inspector command dispatcher and debugger domain
handler against the source in src/lib/FrontendCommandHandler.js and the
DebuggerAgent file (src/unnamed/part_000).

The JavaScript code is shallowly embedded: every handler method is a Lean
function from the relevant backend outcomes to the ordered list of observable
outputs it produces (backend requests, front-end responses and events,
console diagnostics, script-registry operations and completion-callback
invocations).  Asynchronous callback chains in the source are strictly
sequential (each backend callback runs to completion before the next request
is issued), so a single ordered trace is a faithful model of one command
execution.
-/

/-- A primitive JavaScript value as it appears in inbound protocol messages
(command id, method, params).  Objects are not needed for the claims; params
are treated as opaque primitives. -/
inductive JsPrim where
  | num (n : Int)
  | str (s : String)
  | bool (b : Bool)
  | null
  | undef
deriving DecidableEq, Repr

/-- JavaScript truthiness of a primitive value: 0, the empty string, false,
null and undefined are falsy, everything else is truthy. -/
def jsTruthy : JsPrim → Bool
  | JsPrim.num n => decide (n ≠ 0)
  | JsPrim.str s => decide (s ≠ "")
  | JsPrim.bool b => b
  | JsPrim.null => false
  | JsPrim.undef => false

/-- Truthiness of a nullable error-message argument of a node-style callback:
null or undefined is falsy, so is the empty string. -/
def optStrTruthy : Option String → Bool
  | none => false
  | some s => decide (s ≠ "")

/-- The result object of the changelive backend request, as read by
setScriptSource: the two fields the code branches on. -/
structure ChangeLiveResult where
  stack_update_needs_step_in : Bool
  stack_modified : Bool
deriving DecidableEq, Repr

/-- Modelled from the spec: convert.js is not under src.  The conversions
v8ErrorToInspectorError and v8ResultToInspectorResult are treated as opaque
injections of the error message respectively the backend value; the claims
only depend on which of the two was applied. -/
inductive InspectorValue where
  | fromError (msg : String)
  | fromResult (v : Nat)
deriving DecidableEq, Repr

/-- Result values handed to the dispatcher completion callback.  Each
constructor mirrors one result shape built by the modelled source code. -/
inductive ResultVal where
  /-- canSetScriptSource result object. -/
  | canSet (b : Bool)
  /-- setScriptSource result: callFrames plus the raw changelive result. -/
  | ssResponse (callFrames : List Nat) (res : ChangeLiveResult)
  /-- evaluateOnCallFrame result: the (possibly error) value and wasThrown. -/
  | evalResult (v : InspectorValue) (wasThrown : Bool)
  /-- Fixed result registered for CSS.getSupportedCSSProperties. -/
  | cssSupported
  /-- Fixed result registered for Worker.canInspectWorkers. -/
  | workerCanInspect (r : Bool)
deriving DecidableEq, Repr

/-- Arguments of a backend wire request.  Fields that no claim inspects
(script ids, source text, expressions) are kept opaque. -/
inductive ReqArg where
  /-- args omitted (undefined). -/
  | undef
  /-- an empty argument object. -/
  | emptyObj
  /-- continue args from _sendContinue: a stepaction key (lower-case key). -/
  | stepaction (v : JsPrim)
  /-- continue args from the setScriptSource workaround: stepAction in
  (note the different, capitalised key in that call site). -/
  | stepActionCapIn
  /-- clearbreakpoint target: the breakpoint number. -/
  | bpNumber (n : Nat)
  /-- scripts args of _reloadScripts: includeSource false, types 4. -/
  | scriptsNoSource
  /-- changelive args: script_id and new_source from the command params
  (opaque here), preview_only false. -/
  | changeliveArgs
  /-- evaluate args: expression and frame from the command params (opaque). -/
  | evaluateReq
deriving DecidableEq, Repr

/-- One observable output of running a command handler: backend requests,
front-end traffic, console diagnostics, script-registry and break-notifier
operations, and invocations of the completion callback. -/
inductive Output where
  /-- debuggerClient.request(cmd, args, ...) or clearBreakpoint. -/
  | request (cmd : String) (arg : ReqArg)
  /-- frontendClient.sendResponse(id, error, result). -/
  | sendResponse (id : JsPrim) (error : Option String) (result : Option ResultVal)
  /-- frontendClient.sendEvent(name). -/
  | sendEvent (name : String)
  /-- console.log diagnostic. -/
  | consoleLog (msg : String)
  /-- frontendClient.sendLogToConsole(level, msg). -/
  | logToConsole (level : String) (msg : String)
  /-- breakEventHandler.sendBacktraceToFrontend(null): the pause state is
  pushed to the front end with no frame filter. -/
  | emitPause
  /-- scriptManager.reset(). -/
  | scriptsReset
  /-- scriptManager.addScript(descriptor), descriptor kept opaque. -/
  | scriptAdd (s : Nat)
  /-- breakEventHandler.callbackForNextBreak is assigned. -/
  | armNextBreak
  /-- breakEventHandler.fetchCallFrames(...) is called. -/
  | fetchFrames
  /-- debuggerClient.connect(). -/
  | connectCall
  /-- debuggerClient.close(). -/
  | closeCall
  /-- the completion callback done(error, result) given to the handler is
  invoked.  done() with no arguments is doneCall none none. -/
  | doneCall (error : Option String) (result : Option ResultVal)
deriving DecidableEq, Repr

/-- Outcomes supplied by the backend and the external collaborators during
one command execution; each field corresponds to one callback of the
DebuggerAgent source.  none means the node-style callback got no error. -/
structure DebuggerBackend where
  /-- how many connect events the debuggerClient delivers after enable. -/
  connects : Nat
  /-- listbreakpoints outcome. -/
  listbpErr : Option String
  /-- breakpoint numbers returned by listbreakpoints (when no error). -/
  breakpoints : List Nat
  /-- per-breakpoint clearBreakpoint outcome. -/
  clearErr : Nat → Option String
  /-- scripts request outcome: error or the script descriptor list. -/
  scriptsResult : Except String (List Nat)
  /-- debuggerClient.isRunning at bootstrap step 3. -/
  isRunning : Bool
  /-- continue request outcome (resume / step family). -/
  contErr : Option String
  /-- suspend request outcome (pause). -/
  suspendErr : Option String
  /-- changelive request outcome. -/
  changeliveErr : Option String
  /-- changelive result object (when no error). -/
  clResult : ChangeLiveResult
  /-- breakEventHandler.fetchCallFrames outcome. -/
  fetchFramesResult : Except String (List Nat)
  /-- outcome of the step-into continue request issued by setScriptSource. -/
  stepContinueErr : Option String
  /-- evaluate request outcome, as the raw nullable err callback argument. -/
  evalErr : Option String
  /-- evaluate result value (opaque), used when err is falsy. -/
  evalResult : Nat

/-- DebuggerAgent._sendContinue(stepAction, done): build args from the
truthiness of stepAction, issue continue, call done(error) and on success
emit the Debugger.resumed event (in that order). -/
def sendContinueTrace (stepAction : JsPrim) (contErr : Option String) : List Output :=
  Output.request "continue"
      (if jsTruthy stepAction then ReqArg.stepaction stepAction else ReqArg.undef) ::
    Output.doneCall contErr none ::
    (if optStrTruthy contErr then [] else [Output.sendEvent "Debugger.resumed"])

/-- DebuggerAgent.pause(params, done): issue suspend, call done(error) and on
success push the pause state to the front end (in that order). -/
def pauseTrace (suspendErr : Option String) : List Output :=
  Output.request "suspend" ReqArg.emptyObj ::
    Output.doneCall suspendErr none ::
    (if optStrTruthy suspendErr then [] else [Output.emitPause])

/-- One iteration of the serial clear loop in _removeAllBreakpoints: issue
clearBreakpoint(bp); on error log a warning; always continue (next()). -/
def removeOneBreakpointTrace (b : DebuggerBackend) (n : Nat) : List Output :=
  Output.request "clearbreakpoint" (ReqArg.bpNumber n) ::
    (match b.clearErr n with
     | some e =>
         [Output.consoleLog
             ("Warning: cannot remove old breakpoint " ++ toString n ++ ". " ++ e)]
     | none => [])

/-- DebuggerAgent._removeAllBreakpoints(done): request listbreakpoints; on
error log a warning and complete successfully; otherwise clear each listed
breakpoint one at a time (async.eachSeries), then complete.  This waterfall
step never completes with an error. -/
def removeAllBreakpointsTrace (b : DebuggerBackend) : List Output :=
  Output.request "listbreakpoints" ReqArg.emptyObj ::
    (match b.listbpErr with
     | some e => [Output.consoleLog ("Warning: cannot remove old breakpoints. " ++ e)]
     | none => (b.breakpoints.flatMap (removeOneBreakpointTrace b)))

/-- DebuggerAgent._reloadScripts(done): reset the registry, request the
script list; on error call done(err); on success add each script and call
done().  Returns the trace and the error passed to the waterfall. -/
def reloadScriptsTrace (b : DebuggerBackend) : List Output × Option String :=
  match b.scriptsResult with
  | Except.error e =>
      ([Output.scriptsReset, Output.request "scripts" ReqArg.scriptsNoSource], some e)
  | Except.ok scripts =>
      (Output.scriptsReset :: Output.request "scripts" ReqArg.scriptsNoSource ::
         scripts.map Output.scriptAdd, none)

/-- DebuggerAgent._sendBacktraceIfPaused(done): if the backend is not
running, push the pause state; always complete successfully. -/
def sendBacktraceIfPausedTrace (b : DebuggerBackend) : List Output :=
  if b.isRunning then [] else [Output.emitPause]

/-- DebuggerAgent._onDebuggerConnect: async.waterfall of the three bootstrap
steps.  Step 1 never fails; an error from step 2 skips step 3 and is
delivered nowhere (the waterfall has no final callback). -/
def onDebuggerConnectTrace (b : DebuggerBackend) : List Output :=
  removeAllBreakpointsTrace b ++
    (reloadScriptsTrace b).1 ++
    (match (reloadScriptsTrace b).2 with
     | some _ => []
     | none => sendBacktraceIfPausedTrace b)

/-- The connect listener registered by enable runs once per connect event
delivered by the debuggerClient: it calls done() and then runs the connect
bootstrap.  The listener is registered with on, not once, so it stays
subscribed. -/
def connectIterations (b : DebuggerBackend) : Nat → List Output
  | 0 => []
  | Nat.succ n =>
      (Output.doneCall none none :: onDebuggerConnectTrace b) ++ connectIterations b n

/-- DebuggerAgent.enable(params, done): subscribe the connect listener, call
debuggerClient.connect(), then react to every delivered connect event. -/
def enableTrace (b : DebuggerBackend) : List Output :=
  Output.connectCall :: connectIterations b b.connects

/-- DebuggerAgent.disable(params, done): close the connection, complete. -/
def disableTrace : List Output :=
  [Output.closeCall, Output.doneCall none none]

/-- sendResponse inside setScriptSource: done(null, callFrames or empty,
raw changelive result).  callframes is undefined when called with no
argument; an empty array is truthy in JavaScript and is kept as is. -/
def sendResponseSSOut (b : DebuggerBackend) (callframes : Option (List Nat)) : Output :=
  Output.doneCall none (some (ResultVal.ssResponse (Option.getD callframes []) b.clResult))

/-- sendResponseWithCallStack inside setScriptSource: fetch fresh call
frames; on error log through the front-end console and respond with an empty
frame list; on success respond with the fetched frames. -/
def sendResponseWithCallStackTrace (b : DebuggerBackend) : List Output :=
  Output.fetchFrames ::
    (match b.fetchFramesResult with
     | Except.error err =>
         [Output.logToConsole "error"
             ("Cannot update stack trace after a script changed: " ++ err),
          sendResponseSSOut b (some [])]
     | Except.ok frames => [sendResponseSSOut b (some frames)])

/-- stepIntoAndSendResponse inside setScriptSource: arm the one-shot
next-break callback with sendResponseWithCallStack, then issue a continue
request with stepAction in; if that request fails, log through the front-end
console and respond immediately with whatever frames are obtainable.  The
second component is the armed next-break callback. -/
def stepIntoAndSendResponseTrace (b : DebuggerBackend) : List Output × Option (List Output) :=
  (Output.armNextBreak ::
     Output.request "continue" ReqArg.stepActionCapIn ::
     (match b.stepContinueErr with
      | some err =>
          Output.logToConsole "error"
              ("Cannot execute step-into after a script changed: " ++ err ++
                "\nPlease perform step-into yourself from the GUI.") ::
            sendResponseWithCallStackTrace b
      | none => []),
   some (sendResponseWithCallStackTrace b))

/-- DebuggerAgent.setScriptSource(params, done): issue changelive; on error
call done(err); otherwise branch on the tri-state outcome, checking
stack_update_needs_step_in first, then stack_modified, else respond with an
empty frame sequence.  The second component is the armed next-break
callback, if any. -/
def setScriptSourceTrace (b : DebuggerBackend) : List Output × Option (List Output) :=
  match b.changeliveErr with
  | some e =>
      ([Output.request "changelive" ReqArg.changeliveArgs, Output.doneCall (some e) none],
       none)
  | none =>
      if b.clResult.stack_update_needs_step_in then
        (Output.request "changelive" ReqArg.changeliveArgs ::
           (stepIntoAndSendResponseTrace b).1,
         (stepIntoAndSendResponseTrace b).2)
      else if b.clResult.stack_modified then
        (Output.request "changelive" ReqArg.changeliveArgs ::
           sendResponseWithCallStackTrace b,
         none)
      else
        ([Output.request "changelive" ReqArg.changeliveArgs, sendResponseSSOut b none],
         none)

/-- DebuggerAgent.evaluateOnCallFrame(params, done): issue evaluate; in the
callback, a truthy err is converted to an inspector error value; done is
always called with a null error, the result being the converted error or the
converted value, and wasThrown the truthiness of err. -/
def evaluateOnCallFrameTrace (b : DebuggerBackend) : List Output :=
  [Output.request "evaluate" ReqArg.evaluateReq,
   Output.doneCall none (some (ResultVal.evalResult
     (if optStrTruthy b.evalErr
      then InspectorValue.fromError (Option.getD b.evalErr "")
      else InspectorValue.fromResult b.evalResult)
     (optStrTruthy b.evalErr)))]

/-- DebuggerAgent.canSetScriptSource(params, done). -/
def canSetScriptSourceTrace : List Output :=
  [Output.doneCall none (some (ResultVal.canSet true))]

/-- DebuggerAgent.setOverlayMessage(params, done). -/
def setOverlayMessageTrace : List Output :=
  [Output.doneCall none none]

/-- Split a character list at every dot, keeping empty segments, as
JavaScript string.split(".") does on the character sequence. -/
def splitCharsOnDot : List Char → List (List Char)
  | [] => [[]]
  | c :: rest =>
      if c = '.' then [] :: splitCharsOnDot rest
      else
        match splitCharsOnDot rest with
        | [] => [[c]]
        | h :: t => (c :: h) :: t

/-- JavaScript fullMethodName.split("."): the method name split at every
dot.  Always returns at least one segment; "a.b" gives ["a", "b"]. -/
def splitMethodName (s : String) : List String :=
  (splitCharsOnDot s.toList).map (fun cs => String.mk cs)

/-- A property of a registered domain handler object: either a function
(taking the command params and producing the output trace of the handler,
completion-callback invocations marked as doneCall) or a non-function
value. -/
inductive AgentProp where
  | func (f : JsPrim → List Output)
  | value (v : JsPrim)

/-- A registered domain handler: its own properties, as an association
list from property name to property value. -/
structure Agent where
  methods : List (String × AgentProp)

/-- JavaScript property lookup agent[methodName]. -/
def agentLookup (agent : Agent) (name : String) : Option AgentProp :=
  Option.map Prod.snd (List.find? (fun p => p.1 == name) agent.methods)

/-- The dispatcher state: the domain registry (agents) and the static
override table (specialCommands).  A special-command entry stores the
optional result field: none for a no-op registration, some r for a
fixed-result query. -/
structure HandlerState where
  agents : String → Option Agent
  specialCommands : String → Option (Option ResultVal)

/-- An inbound front-end command object.  A missing field is undef. -/
structure Command where
  id : JsPrim
  method : JsPrim
  params : JsPrim

/-- FrontendCommandHandler._handleMethodResult(requestId, fullMethodName,
error, result).  The source declares a local variable response that is never
assigned before being tested, so the discarded-result warning guard compares
undefined with undefined and never fires; this is embedded verbatim. -/
def handleMethodResult (requestId : JsPrim) (fullMethodName : String)
    (error : Option String) (result : Option ResultVal) : List Output :=
  let response : Option ResultVal := none
  if jsTruthy requestId = false then
    if response.isSome then
      [Output.consoleLog ("Warning: discarded result of " ++ fullMethodName)]
    else []
  else
    [Output.sendResponse requestId error result]

/-- The completion callback passed to a handler method by handleCommand:
each doneCall in the handler trace runs _handleMethodResult synchronously at
that point; every other output passes through unchanged. -/
def runDone (id : JsPrim) (fullMethodName : String) : Output → List Output
  | Output.doneCall e r => handleMethodResult id fullMethodName e r
  | o => [o]

/-- FrontendCommandHandler.handleCommand(messageObject).  A non-string
method field makes fullMethodName.split throw a TypeError (modelled as the
Except error); otherwise the static override table is consulted first, then
the domain registry, then the method property on the agent; an unroutable
command is logged and dropped; a resolved function property is invoked with
the command params and the completion callback. -/
def handleCommand (st : HandlerState) (msg : Command) : Except String (List Output) :=
  match msg.method with
  | JsPrim.str fullMethodName =>
      match st.specialCommands fullMethodName with
      | some special =>
          Except.ok (handleMethodResult msg.id fullMethodName none special)
      | none =>
          match st.agents (List.headD (splitMethodName fullMethodName) "") with
          | none =>
              Except.ok [Output.consoleLog
                ("Received request for an unknown domain: " ++ fullMethodName)]
          | some agent =>
              match agentLookup agent
                  (Option.getD ((splitMethodName fullMethodName)[1]?) "undefined") with
              | some (AgentProp.func f) =>
                  Except.ok ((f msg.params).flatMap (runDone msg.id fullMethodName))
              | _ =>
                  Except.ok [Output.consoleLog
                    ("Received request for an unknown method: " ++ fullMethodName)]
  | _ => Except.error "TypeError: Cannot read property split of undefined"

/-- The DebuggerAgent registered under the Debugger domain, as a property
table.  Each modelled prototype method is listed under its source name; the
internal helper _sendContinue is a plain function-valued property like any
other, and when the dispatcher calls it with (params, callback) its first
parameter stepAction is bound to the command params. -/
def debuggerAgent (b : DebuggerBackend) : Agent :=
  { methods :=
      [("canSetScriptSource", AgentProp.func (fun _ => canSetScriptSourceTrace)),
       ("enable", AgentProp.func (fun _ => enableTrace b)),
       ("disable", AgentProp.func (fun _ => disableTrace)),
       ("resume", AgentProp.func (fun _ => sendContinueTrace JsPrim.undef b.contErr)),
       ("_sendContinue", AgentProp.func (fun p => sendContinueTrace p b.contErr)),
       ("pause", AgentProp.func (fun _ => pauseTrace b.suspendErr)),
       ("stepOver", AgentProp.func (fun _ => sendContinueTrace (JsPrim.str "next") b.contErr)),
       ("stepInto", AgentProp.func (fun _ => sendContinueTrace (JsPrim.str "in") b.contErr)),
       ("stepOut", AgentProp.func (fun _ => sendContinueTrace (JsPrim.str "out") b.contErr)),
       ("setScriptSource", AgentProp.func (fun _ => (setScriptSourceTrace b).1)),
       ("setOverlayMessage", AgentProp.func (fun _ => setOverlayMessageTrace)),
       ("evaluateOnCallFrame", AgentProp.func (fun _ => evaluateOnCallFrameTrace b))] }

/-- The static override table built by _initializeRegistry: the no-op
registrations store no result field, the two queries store a fixed result. -/
def specialCommandsModel : String → Option (Option ResultVal) := fun name =>
  if name == "Network.enable" || name == "Console.enable" ||
     name == "Database.enable" || name == "DOMStorage.enable" ||
     name == "DOM.hideHighlight" || name == "Inspector.enable" ||
     name == "Profiler.enable" || name == "CSS.enable" then
    some none
  else if name == "CSS.getSupportedCSSProperties" then
    some (some ResultVal.cssSupported)
  else if name == "Worker.canInspectWorkers" then
    some (some (ResultVal.workerCanInspect false))
  else
    none

/-- The dispatcher state after _initializeRegistry, for a given backend
behaviour.  The Runtime and Page agents are external to src and are not
referenced by any claim, so only the Debugger domain is populated. -/
def exampleState (b : DebuggerBackend) : HandlerState :=
  { agents := fun d => if d == "Debugger" then some (debuggerAgent b) else none,
    specialCommands := specialCommandsModel }

/-- A backend behaviour on which every request succeeds. -/
def backendOk : DebuggerBackend :=
  { connects := 1,
    listbpErr := none,
    breakpoints := [],
    clearErr := fun _ => none,
    scriptsResult := Except.ok [],
    isRunning := true,
    contErr := none,
    suspendErr := none,
    changeliveErr := none,
    clResult := { stack_update_needs_step_in := false, stack_modified := false },
    fetchFramesResult := Except.ok [],
    stepContinueErr := none,
    evalErr := none,
    evalResult := 0 }

/-- Recogniser for completion-callback invocations in a trace. -/
def isDoneCall : Output → Bool
  | Output.doneCall _ _ => true
  | _ => false

/-- Recogniser for completion-callback invocations carrying an error. -/
def isErrDoneCall : Output → Bool
  | Output.doneCall (some _) _ => true
  | _ => false

/-- Recogniser for front-end responses carrying a given id. -/
def isRespWith (id : JsPrim) : Output → Bool
  | Output.sendResponse i _ _ => decide (i = id)
  | _ => false

/-- Recogniser for front-end responses with any id. -/
def isResp : Output → Bool
  | Output.sendResponse _ _ _ => true
  | _ => false

/-- Recogniser for clearbreakpoint backend requests. -/
def isClearReq : Output → Bool
  | Output.request c _ => c == "clearbreakpoint"
  | _ => false

/-- Recogniser for scripts backend requests. -/
def isScriptsReq : Output → Bool
  | Output.request c _ => c == "scripts"
  | _ => false

/-- Recogniser for listbreakpoints backend requests. -/
def isListBpReq : Output → Bool
  | Output.request c _ => c == "listbreakpoints"
  | _ => false

/-- Recogniser for console.log diagnostics. -/
def isConsoleLog : Output → Bool
  | Output.consoleLog _ => true
  | _ => false

/-- Recogniser for script-registry additions. -/
def isScriptAdd : Output → Bool
  | Output.scriptAdd _ => true
  | _ => false

/-- Recogniser for pause-state pushes to the front end. -/
def isEmitPause : Output → Bool
  | Output.emitPause => true
  | _ => false

/-- Index of the first output satisfying p, if any. -/
def idxOfP (p : Output → Bool) : List Output → Option Nat
  | [] => none
  | o :: t => if p o then some 0 else Option.map (fun k => k + 1) (idxOfP p t)

/-- Whether the first pause notification in the trace occurs strictly before
the first front-end response. -/
def notifBeforeResponse (t : List Output) : Bool :=
  match idxOfP isEmitPause t, idxOfP isResp t with
  | some i, some j => decide (i < j)
  | _, _ => false

/-- Running a handler trace through the completion callback of a command
with a truthy id turns every completion into exactly one response carrying
that id and introduces no other response with that id. -/
theorem countP_flatMap_runDone (id : JsPrim) (name : String)
    (hid : jsTruthy id = true) (l : List Output) :
    List.countP (isRespWith id) (l.flatMap (runDone id name))
      = List.countP isDoneCall l + List.countP (isRespWith id) l := by
  induction l with
  | nil => simp
  | cons o t ih =>
    rw [List.flatMap_cons, List.countP_append, ih]
    cases o <;>
      simp [runDone, handleMethodResult, hid, isDoneCall, isRespWith,
        List.countP_cons] <;>
      omega

/-- Resolution of a command through the dispatcher to a function-valued
property of a registered agent: the dispatcher invokes the function on the
command params and runs its trace through the completion callback. -/
theorem handleCommand_resolves_func (st : HandlerState) (msg : Command)
    (fullMethodName domainName methodName : String) (agent : Agent)
    (f : JsPrim → List Output)
    (hm : msg.method = JsPrim.str fullMethodName)
    (hsplit : splitMethodName fullMethodName = [domainName, methodName])
    (hspec : st.specialCommands fullMethodName = none)
    (hag : st.agents domainName = some agent)
    (hf : agentLookup agent methodName = some (AgentProp.func f)) :
    handleCommand st msg
      = Except.ok ((f msg.params).flatMap (runDone msg.id fullMethodName)) := by
  obtain ⟨id, method, params⟩ := msg
  cases hm
  simp only [handleCommand, hspec, hsplit, List.headD, hag, List.getElem?_cons_succ,
    List.getElem?_cons_zero, Option.getD_some, hf]

/-- C10 (confirmed): method resolution on a domain handler is an
unrestricted property lookup guarded only by a typeof-function check; every
function-valued property of a registered handler, underscore-prefixed
internal helpers included, is invoked by the dispatcher with the command
params rather than the command being dropped. -/
theorem dispatcher_invokes_function_property (st : HandlerState) (msg : Command)
    (fullMethodName domainName methodName : String) (agent : Agent)
    (f : JsPrim → List Output)
    (hm : msg.method = JsPrim.str fullMethodName)
    (hsplit : splitMethodName fullMethodName = [domainName, methodName])
    (hspec : st.specialCommands fullMethodName = none)
    (hag : st.agents domainName = some agent)
    (hf : agentLookup agent methodName = some (AgentProp.func f)) :
    handleCommand st msg
      = Except.ok ((f msg.params).flatMap (runDone msg.id fullMethodName)) :=
  handleCommand_resolves_func st msg fullMethodName domainName methodName agent f
    hm hsplit hspec hag hf

/-- Witness for C10: the command Debugger._sendContinue is routed to the
internal helper _sendContinue, which issues a continue request with the
command params as its step action, rather than being dropped. -/
theorem dispatcher_invokes_function_property_witness :
    handleCommand (exampleState backendOk)
        { id := JsPrim.num 3, method := JsPrim.str "Debugger._sendContinue",
          params := JsPrim.str "in" }
      = Except.ok
          [Output.request "continue" (ReqArg.stepaction (JsPrim.str "in")),
           Output.sendResponse (JsPrim.num 3) none none,
           Output.sendEvent "Debugger.resumed"] := by
  rw [dispatcher_invokes_function_property (exampleState backendOk)
    { id := JsPrim.num 3, method := JsPrim.str "Debugger._sendContinue",
      params := JsPrim.str "in" }
    "Debugger._sendContinue" "Debugger" "_sendContinue" (debuggerAgent backendOk)
    (fun p => sendContinueTrace p backendOk.contErr) rfl (by decide) rfl rfl rfl]
  rfl

/-- C1 (corrected): a dispatched command whose id is present and truthy,
routed to a handler function that invokes its completion callback exactly
once and emits no response of its own, yields exactly one response carrying
that id. -/
theorem dispatch_exactly_one_response_truthy_id (st : HandlerState) (msg : Command)
    (fullMethodName domainName methodName : String) (agent : Agent)
    (f : JsPrim → List Output)
    (hm : msg.method = JsPrim.str fullMethodName)
    (hsplit : splitMethodName fullMethodName = [domainName, methodName])
    (hspec : st.specialCommands fullMethodName = none)
    (hag : st.agents domainName = some agent)
    (hf : agentLookup agent methodName = some (AgentProp.func f))
    (hid : jsTruthy msg.id = true)
    (hone : List.countP isDoneCall (f msg.params) = 1)
    (hnor : List.countP (isRespWith msg.id) (f msg.params) = 0) :
    ∃ t, handleCommand st msg = Except.ok t ∧
      List.countP (isRespWith msg.id) t = 1 := by
  refine ⟨_, handleCommand_resolves_func st msg fullMethodName domainName methodName
    agent f hm hsplit hspec hag hf, ?_⟩
  rw [countP_flatMap_runDone msg.id fullMethodName hid, hone, hnor]

/-- Witness for C1: dispatching Debugger.pause with id 7 on a succeeding
backend produces exactly one response carrying id 7. -/
theorem dispatch_exactly_one_response_truthy_id_witness :
    ∃ t, handleCommand (exampleState backendOk)
        { id := JsPrim.num 7, method := JsPrim.str "Debugger.pause",
          params := JsPrim.undef }
      = Except.ok t ∧
      List.countP (isRespWith (JsPrim.num 7)) t = 1 :=
  dispatch_exactly_one_response_truthy_id (exampleState backendOk)
    { id := JsPrim.num 7, method := JsPrim.str "Debugger.pause",
      params := JsPrim.undef }
    "Debugger.pause" "Debugger" "pause" (debuggerAgent backendOk)
    (fun _ => pauseTrace backendOk.suspendErr)
    rfl (by decide) rfl rfl rfl (by decide) (by decide) (by decide)

/-- Counterexample for C1 as stated: the id 0 is present (not undefined),
the command routes successfully (to the static override for Network.enable,
so no unknown-domain or unknown-method diagnostic appears), the handler
completes, and yet no response at all is produced, because the dispatcher
tests the id for truthiness, not presence. -/
theorem dispatch_present_zero_id_no_response :
    JsPrim.num 0 ≠ JsPrim.undef ∧
    handleCommand (exampleState backendOk)
        { id := JsPrim.num 0, method := JsPrim.str "Network.enable",
          params := JsPrim.undef }
      = Except.ok [] :=
  ⟨by decide, rfl⟩

/-- C4 (code_bug): when the dispatched command carries no id (a falsy id
field) and the handler completes with a result, the source sends no response
and also logs no diagnostic: the discarded-result warning tests the local
variable response, which is never assigned, instead of the result. -/
theorem handleMethodResult_idless_silent (id : JsPrim) (fullMethodName : String)
    (error : Option String) (r : ResultVal) (hid : jsTruthy id = false) :
    handleMethodResult id fullMethodName error (some r) = [] := by
  simp [handleMethodResult, hid]

/-- Witness for C4: a concrete id-less completion with a produced result
yields no output at all, neither a response nor the diagnostic. -/
theorem handleMethodResult_idless_silent_witness :
    handleMethodResult JsPrim.undef "Debugger.canSetScriptSource" none
      (some (ResultVal.canSet true)) = [] :=
  handleMethodResult_idless_silent JsPrim.undef "Debugger.canSetScriptSource" none
    (ResultVal.canSet true) rfl

/-- C9 (confirmed): a command object whose method field is undefined makes
handleCommand throw while splitting the method name, producing neither a
response nor the unroutable-command diagnostic. -/
theorem handleCommand_undefined_method_throws (st : HandlerState) (msg : Command)
    (h : msg.method = JsPrim.undef) :
    handleCommand st msg
      = Except.error "TypeError: Cannot read property split of undefined" := by
  obtain ⟨id, method, params⟩ := msg
  cases h
  rfl

/-- Witness for C9: a concrete command without a method field throws. -/
theorem handleCommand_undefined_method_throws_witness :
    handleCommand (exampleState backendOk)
        { id := JsPrim.num 1, method := JsPrim.undef, params := JsPrim.undef }
      = Except.error "TypeError: Cannot read property split of undefined" :=
  handleCommand_undefined_method_throws (exampleState backendOk)
    { id := JsPrim.num 1, method := JsPrim.undef, params := JsPrim.undef } rfl

/-- C2 (corrected): for pause and for the resume/step family, when the
backend request succeeds, the response is sent first (done is called with a
null error, which synchronously sends the response for a truthy id) and the
notification (pause state push, or the Debugger.resumed event) is emitted
immediately afterwards: notification strictly after the response, not
before. -/
theorem pause_resume_response_precedes_notification (id sa : JsPrim)
    (hid : jsTruthy id = true) :
    (pauseTrace none).flatMap (runDone id "Debugger.pause")
      = [Output.request "suspend" ReqArg.emptyObj,
         Output.sendResponse id none none,
         Output.emitPause] ∧
    (sendContinueTrace sa none).flatMap (runDone id "Debugger.resume")
      = [Output.request "continue"
           (if jsTruthy sa then ReqArg.stepaction sa else ReqArg.undef),
         Output.sendResponse id none none,
         Output.sendEvent "Debugger.resumed"] := by
  constructor <;>
    simp [pauseTrace, sendContinueTrace, runDone, handleMethodResult, hid, optStrTruthy]

/-- Witness for C2: the scenario command id 7 on a succeeding backend. -/
theorem pause_resume_response_precedes_notification_witness :
    (pauseTrace none).flatMap (runDone (JsPrim.num 7) "Debugger.pause")
      = [Output.request "suspend" ReqArg.emptyObj,
         Output.sendResponse (JsPrim.num 7) none none,
         Output.emitPause] ∧
    (sendContinueTrace JsPrim.undef none).flatMap (runDone (JsPrim.num 7) "Debugger.resume")
      = [Output.request "continue" ReqArg.undef,
         Output.sendResponse (JsPrim.num 7) none none,
         Output.sendEvent "Debugger.resumed"] :=
  pause_resume_response_precedes_notification (JsPrim.num 7) JsPrim.undef rfl

/-- Counterexample for C2 as stated: dispatching the scenario command id 7,
method Debugger.pause, on a backend whose suspend succeeds produces the
response at position 1 and the pause notification at position 2 of the
trace, so the notification is not emitted strictly before the response. -/
theorem pause_notification_after_response :
    handleCommand (exampleState backendOk)
        { id := JsPrim.num 7, method := JsPrim.str "Debugger.pause",
          params := JsPrim.undef }
      = Except.ok
          [Output.request "suspend" ReqArg.emptyObj,
           Output.sendResponse (JsPrim.num 7) none none,
           Output.emitPause] ∧
    notifBeforeResponse
        [Output.request "suspend" ReqArg.emptyObj,
         Output.sendResponse (JsPrim.num 7) none none,
         Output.emitPause] = false :=
  ⟨rfl, rfl⟩

/-- Counting over a flatMap whose pieces never satisfy the predicate. -/
theorem countP_flatMap_zero {α : Type} (p : Output → Bool) (g : α → List Output)
    (l : List α) (h : ∀ a, List.countP p (g a) = 0) :
    List.countP p (l.flatMap g) = 0 := by
  induction l with
  | nil => simp
  | cons a t ih => rw [List.flatMap_cons, List.countP_append, h, ih]

/-- Counting over a flatMap whose pieces each satisfy the predicate once. -/
theorem countP_flatMap_one {α : Type} (p : Output → Bool) (g : α → List Output)
    (l : List α) (h : ∀ a, List.countP p (g a) = 1) :
    List.countP p (l.flatMap g) = l.length := by
  induction l with
  | nil => simp
  | cons a t ih =>
      rw [List.flatMap_cons, List.countP_append, h, ih, List.length_cons]
      omega

/-- One clear iteration emits exactly one clearbreakpoint request. -/
theorem removeOne_clear_one (b : DebuggerBackend) (n : Nat) :
    List.countP isClearReq (removeOneBreakpointTrace b n) = 1 := by
  cases h : b.clearErr n <;>
    simp [removeOneBreakpointTrace, h, isClearReq, List.countP_cons]

/-- One clear iteration emits nothing but its request and, on failure, one
console warning. -/
theorem removeOne_zero (b : DebuggerBackend) (n : Nat) (p : Output → Bool)
    (hReq : ∀ a, p (Output.request "clearbreakpoint" a) = false)
    (hLog : ∀ m, p (Output.consoleLog m) = false) :
    List.countP p (removeOneBreakpointTrace b n) = 0 := by
  cases h : b.clearErr n <;>
    simp [removeOneBreakpointTrace, h, List.countP_cons, hReq, hLog]

/-- One clear iteration logs exactly one warning when and only when its
clear fails, and continues regardless. -/
theorem removeOne_log_count (b : DebuggerBackend) (n : Nat) :
    List.countP isConsoleLog (removeOneBreakpointTrace b n)
      = (if (b.clearErr n).isSome then 1 else 0) := by
  cases h : b.clearErr n <;>
    simp [removeOneBreakpointTrace, h, isConsoleLog, List.countP_cons]

/-- The breakpoint-cleanup step emits nothing but its listbreakpoints
request, its clearbreakpoint requests, and console warnings. -/
theorem removeAll_zero (b : DebuggerBackend) (p : Output → Bool)
    (hL : ∀ a, p (Output.request "listbreakpoints" a) = false)
    (hC : ∀ a, p (Output.request "clearbreakpoint" a) = false)
    (hLog : ∀ m, p (Output.consoleLog m) = false) :
    List.countP p (removeAllBreakpointsTrace b) = 0 := by
  cases h : b.listbpErr with
  | some e => simp [removeAllBreakpointsTrace, h, List.countP_cons, hL, hLog]
  | none =>
      rw [removeAllBreakpointsTrace, h]
      rw [List.countP_cons]
      rw [countP_flatMap_zero p _ _ (fun n => removeOne_zero b n p hC hLog)]
      simp [hL]

/-- With a successful listbreakpoints response, the cleanup step issues one
clearbreakpoint request per listed breakpoint. -/
theorem removeAll_clear_count (b : DebuggerBackend) (h : b.listbpErr = none) :
    List.countP isClearReq (removeAllBreakpointsTrace b) = b.breakpoints.length := by
  rw [removeAllBreakpointsTrace, h, List.countP_cons,
    countP_flatMap_one isClearReq _ _ (removeOne_clear_one b)]
  simp [isClearReq]

/-- With a successful listbreakpoints response, the cleanup step logs one
warning per failing clear and nothing else. -/
theorem removeAll_log_count (b : DebuggerBackend) (h : b.listbpErr = none) :
    List.countP isConsoleLog (removeAllBreakpointsTrace b)
      = (b.breakpoints.filter (fun n => (b.clearErr n).isSome)).length := by
  rw [removeAllBreakpointsTrace, h, List.countP_cons]
  have : ∀ l : List Nat,
      List.countP isConsoleLog (l.flatMap (removeOneBreakpointTrace b))
        = (l.filter (fun n => (b.clearErr n).isSome)).length := by
    intro l
    induction l with
    | nil => simp
    | cons n t ih =>
        rw [List.flatMap_cons, List.countP_append, removeOne_log_count, ih,
          List.filter_cons]
        cases hn : (b.clearErr n).isSome <;> simp [hn] <;> omega
  rw [this]
  simp [isConsoleLog]

/-- The script-reload step issues exactly one scripts request, in both its
outcomes. -/
theorem reload_scripts_count (b : DebuggerBackend) :
    List.countP isScriptsReq ((reloadScriptsTrace b).1) = 1 := by
  cases h : b.scriptsResult with
  | error e => simp [reloadScriptsTrace, h, isScriptsReq, List.countP_cons]
  | ok scripts =>
      simp [reloadScriptsTrace, h, isScriptsReq, List.countP_cons]

/-- The script-reload step issues no clearbreakpoint request and invokes no
completion callback. -/
theorem reload_zero (b : DebuggerBackend) (p : Output → Bool)
    (hReset : p Output.scriptsReset = false)
    (hReq : ∀ a, p (Output.request "scripts" a) = false)
    (hAdd : ∀ s, p (Output.scriptAdd s) = false) :
    List.countP p ((reloadScriptsTrace b).1) = 0 := by
  cases h : b.scriptsResult with
  | error e => simp [reloadScriptsTrace, h, List.countP_cons, hReset, hReq]
  | ok scripts =>
      simp [reloadScriptsTrace, h, List.countP_cons, hReset, hReq]
      intro a ha
      exact hAdd a

/-- The paused-state replay step emits at most a pause push. -/
theorem backtrace_zero (b : DebuggerBackend) (p : Output → Bool)
    (hPause : p Output.emitPause = false) :
    List.countP p (sendBacktraceIfPausedTrace b) = 0 := by
  cases h : b.isRunning <;>
    simp [sendBacktraceIfPausedTrace, h, List.countP_cons, hPause]

/-- The connect bootstrap invokes no completion callback of its own and
issues exactly one listbreakpoints request. -/
theorem onDebuggerConnect_counts (b : DebuggerBackend) :
    List.countP isDoneCall (onDebuggerConnectTrace b) = 0 ∧
    List.countP isListBpReq (onDebuggerConnectTrace b) = 1 := by
  constructor
  · rw [onDebuggerConnectTrace, List.countP_append, List.countP_append]
    rw [removeAll_zero b isDoneCall (fun a => rfl) (fun a => rfl) (fun m => rfl)]
    rw [reload_zero b isDoneCall rfl (fun a => rfl) (fun s => rfl)]
    cases h : (reloadScriptsTrace b).2 with
    | some e => rfl
    | none => rw [backtrace_zero b isDoneCall rfl]
  · rw [onDebuggerConnectTrace, List.countP_append, List.countP_append]
    have h1 : List.countP isListBpReq (removeAllBreakpointsTrace b) = 1 := by
      cases h : b.listbpErr with
      | some e =>
          simp [removeAllBreakpointsTrace, h, isListBpReq, List.countP_cons]
      | none =>
          rw [removeAllBreakpointsTrace, h, List.countP_cons,
            countP_flatMap_zero _ _ _
              (fun n => removeOne_zero b n isListBpReq (fun a => rfl) (fun m => rfl))]
          rfl
    rw [h1, reload_zero b isListBpReq rfl (fun a => rfl) (fun s => rfl)]
    cases h : (reloadScriptsTrace b).2 with
    | some e => rfl
    | none => rw [backtrace_zero b isListBpReq rfl]

/-- C8 (corrected): enable registers its connect listener with on, not once,
so the completion callback and the bootstrap sequence run once per connect
event delivered by the connection: with k connect events they run k times,
not only on the first one. -/
theorem enable_retriggered_per_connect (b : DebuggerBackend) :
    List.countP isDoneCall (enableTrace b) = b.connects ∧
    List.countP isListBpReq (enableTrace b) = b.connects := by
  have hiter : ∀ k : Nat,
      List.countP isDoneCall (connectIterations b k) = k ∧
      List.countP isListBpReq (connectIterations b k) = k := by
    intro k
    induction k with
    | zero => simp [connectIterations]
    | succ n ih =>
        rw [connectIterations, List.countP_append, List.countP_append]
        constructor
        · rw [List.countP_cons, (onDebuggerConnect_counts b).1, ih.1]
          simp [isDoneCall]
          omega
        · rw [List.countP_cons, (onDebuggerConnect_counts b).2, ih.2]
          simp [isListBpReq]
          omega
  constructor
  · rw [enableTrace, List.countP_cons, (hiter b.connects).1]
    simp [isDoneCall]
  · rw [enableTrace, List.countP_cons, (hiter b.connects).2]
    simp [isListBpReq]

/-- Counterexample for C8 as stated: with two connect events delivered, the
enable completion callback runs twice and the bootstrap runs twice; it is
re-triggered by the second connect event, not consumed by the first. -/
theorem enable_two_connects_two_completions :
    List.countP isDoneCall (enableTrace { backendOk with connects := 2 }) = 2 ∧
    ¬ List.countP isDoneCall (enableTrace { backendOk with connects := 2 }) = 1 := by
  constructor
  · rfl
  · decide

/-- C7 (confirmed): given N pre-existing backend breakpoints at enable time,
the bootstrap issues exactly N clearbreakpoint requests, serially (the trace
of each iteration, request then outcome, precedes the next iteration), all
before the single scripts request; an individual clear failure produces one
console warning and the sequence continues to the end. -/
theorem removeAllBreakpoints_serial_before_scripts (b : DebuggerBackend)
    (h : b.listbpErr = none) :
    removeAllBreakpointsTrace b
      = Output.request "listbreakpoints" ReqArg.emptyObj ::
          b.breakpoints.flatMap (removeOneBreakpointTrace b) ∧
    List.countP isClearReq (removeAllBreakpointsTrace b) = b.breakpoints.length ∧
    List.countP isConsoleLog (removeAllBreakpointsTrace b)
      = (b.breakpoints.filter (fun n => (b.clearErr n).isSome)).length ∧
    List.countP isScriptsReq (removeAllBreakpointsTrace b) = 0 ∧
    ∃ post, onDebuggerConnectTrace b = removeAllBreakpointsTrace b ++ post ∧
      List.countP isClearReq post = 0 ∧
      List.countP isScriptsReq post = 1 := by
  refine ⟨?_, removeAll_clear_count b h, removeAll_log_count b h, ?_, ?_⟩
  · rw [removeAllBreakpointsTrace, h]
  · exact removeAll_zero b isScriptsReq (fun a => rfl) (fun a => rfl) (fun m => rfl)
  · refine ⟨(reloadScriptsTrace b).1 ++
      (match (reloadScriptsTrace b).2 with
       | some _ => []
       | none => sendBacktraceIfPausedTrace b), ?_, ?_, ?_⟩
    · rw [onDebuggerConnectTrace, List.append_assoc]
    · rw [List.countP_append]
      rw [reload_zero b isClearReq rfl (fun a => rfl) (fun s => rfl)]
      cases hr : (reloadScriptsTrace b).2 with
      | some e => rfl
      | none => rw [backtrace_zero b isClearReq rfl]
    · rw [List.countP_append, reload_scripts_count b]
      cases hr : (reloadScriptsTrace b).2 with
      | some e => rfl
      | none => rw [backtrace_zero b isScriptsReq rfl]

/-- A backend with three pre-existing breakpoints of which the middle one
fails to clear. -/
def threeBpBackend : DebuggerBackend :=
  { backendOk with
    breakpoints := [10, 20, 30],
    clearErr := fun n => if n = 20 then some "breakpoint not found" else none }

/-- Witness for C7: three pre-existing breakpoints yield exactly three
clearbreakpoint requests and one warning for the failing clear, all before
the single scripts request. -/
theorem removeAllBreakpoints_serial_before_scripts_witness :
    List.countP isClearReq (removeAllBreakpointsTrace threeBpBackend) = 3 ∧
    List.countP isConsoleLog (removeAllBreakpointsTrace threeBpBackend) = 1 ∧
    List.countP isScriptsReq (removeAllBreakpointsTrace threeBpBackend) = 0 ∧
    ∃ post, onDebuggerConnectTrace threeBpBackend
        = removeAllBreakpointsTrace threeBpBackend ++ post ∧
      List.countP isClearReq post = 0 ∧
      List.countP isScriptsReq post = 1 := by
  have h := removeAllBreakpoints_serial_before_scripts threeBpBackend rfl
  exact ⟨h.2.1, h.2.2.1, h.2.2.2.1, h.2.2.2.2⟩

/-- C3 (corrected): a failure of the script-reload bootstrap step aborts the
remaining bootstrap, fatally: no script is added and the paused-state replay
step never runs.  But the failure is not propagated as the error result of
the enable call: enable has already completed successfully (done with no
error) when the connection was established, before the bootstrap began, and
no error completion ever occurs. -/
theorem reload_failure_aborts_not_propagated (b : DebuggerBackend) (e : String)
    (hc : b.connects = 1) (hs : b.scriptsResult = Except.error e) :
    enableTrace b
      = Output.connectCall :: Output.doneCall none none ::
          (removeAllBreakpointsTrace b ++
            [Output.scriptsReset, Output.request "scripts" ReqArg.scriptsNoSource]) ∧
    List.countP isErrDoneCall (enableTrace b) = 0 ∧
    List.countP isScriptAdd (enableTrace b) = 0 ∧
    List.countP isEmitPause (enableTrace b) = 0 := by
  have htr : enableTrace b
      = Output.connectCall :: Output.doneCall none none ::
          (removeAllBreakpointsTrace b ++
            [Output.scriptsReset, Output.request "scripts" ReqArg.scriptsNoSource]) := by
    rw [enableTrace, hc]
    rw [connectIterations, connectIterations]
    rw [onDebuggerConnectTrace, reloadScriptsTrace]
    rw [hs]
    simp
  refine ⟨htr, ?_, ?_, ?_⟩ <;> rw [htr] <;>
    rw [List.countP_cons, List.countP_cons, List.countP_append]
  · rw [removeAll_zero b isErrDoneCall (fun a => rfl) (fun a => rfl) (fun m => rfl)]
    rfl
  · rw [removeAll_zero b isScriptAdd (fun a => rfl) (fun a => rfl) (fun m => rfl)]
    rfl
  · rw [removeAll_zero b isEmitPause (fun a => rfl) (fun a => rfl) (fun m => rfl)]
    rfl

/-- Witness for C3: a concrete failing scripts request during the connect
bootstrap, with one connect event. -/
theorem reload_failure_aborts_not_propagated_witness :
    enableTrace { backendOk with scriptsResult := Except.error "EIO" }
      = Output.connectCall :: Output.doneCall none none ::
          (removeAllBreakpointsTrace { backendOk with scriptsResult := Except.error "EIO" } ++
            [Output.scriptsReset, Output.request "scripts" ReqArg.scriptsNoSource]) ∧
    List.countP isErrDoneCall
        (enableTrace { backendOk with scriptsResult := Except.error "EIO" }) = 0 ∧
    List.countP isScriptAdd
        (enableTrace { backendOk with scriptsResult := Except.error "EIO" }) = 0 ∧
    List.countP isEmitPause
        (enableTrace { backendOk with scriptsResult := Except.error "EIO" }) = 0 :=
  reload_failure_aborts_not_propagated
    { backendOk with scriptsResult := Except.error "EIO" } "EIO" rfl rfl

/-- Counterexample for C3 as stated: on a backend whose scripts request
fails with ENOENT, the enable call still completes exactly once and with no
error; the step-2 failure is not propagated as the error result of the
enable call. -/
theorem reload_failure_enable_still_succeeds :
    List.countP isErrDoneCall
        (enableTrace { backendOk with scriptsResult := Except.error "ENOENT" }) = 0 ∧
    List.countP isDoneCall
        (enableTrace { backendOk with scriptsResult := Except.error "ENOENT" }) = 1 :=
  ⟨rfl, rfl⟩

/-- C5 (confirmed): setScriptSource follows the tri-state changelive
outcome.  Unchanged: the response carries an empty call-frame sequence.
Stack-modified: the response carries the freshly fetched frames.
Step-in-required: the next-break callback is armed, a step-into continue
request is issued, no completion happens in the immediate trace, and the
armed callback completes the call with freshly fetched frames once the next
pause fires. -/
theorem setScriptSource_tristate (b : DebuggerBackend) (h : b.changeliveErr = none) :
    (b.clResult.stack_update_needs_step_in = false →
     b.clResult.stack_modified = false →
       setScriptSourceTrace b
         = ([Output.request "changelive" ReqArg.changeliveArgs,
             Output.doneCall none (some (ResultVal.ssResponse [] b.clResult))],
            none)) ∧
    (∀ frames, b.clResult.stack_update_needs_step_in = false →
     b.clResult.stack_modified = true →
     b.fetchFramesResult = Except.ok frames →
       setScriptSourceTrace b
         = ([Output.request "changelive" ReqArg.changeliveArgs,
             Output.fetchFrames,
             Output.doneCall none (some (ResultVal.ssResponse frames b.clResult))],
            none)) ∧
    (b.clResult.stack_update_needs_step_in = true →
     b.stepContinueErr = none →
       setScriptSourceTrace b
         = ([Output.request "changelive" ReqArg.changeliveArgs,
             Output.armNextBreak,
             Output.request "continue" ReqArg.stepActionCapIn],
            some (sendResponseWithCallStackTrace b)) ∧
       List.countP isDoneCall
           [Output.request "changelive" ReqArg.changeliveArgs,
            Output.armNextBreak,
            Output.request "continue" ReqArg.stepActionCapIn] = 0 ∧
       (∀ frames, b.fetchFramesResult = Except.ok frames →
         sendResponseWithCallStackTrace b
           = [Output.fetchFrames,
              Output.doneCall none (some (ResultVal.ssResponse frames b.clResult))])) := by
  refine ⟨?_, ?_, ?_⟩
  · intro h1 h2
    simp [setScriptSourceTrace, h, h1, h2, sendResponseSSOut]
  · intro frames h1 h2 hf
    simp [setScriptSourceTrace, h, h1, h2, sendResponseWithCallStackTrace, hf,
      sendResponseSSOut]
  · intro h1 h2
    refine ⟨?_, rfl, ?_⟩
    · simp [setScriptSourceTrace, h, h1, stepIntoAndSendResponseTrace, h2]
    · intro frames hf
      simp [sendResponseWithCallStackTrace, hf, sendResponseSSOut]

/-- Witness for C5: the step-in-required outcome on a concrete backend: the
immediate trace arms the callback and issues the step-into continue with no
completion, and the armed callback then completes with the fetched frames. -/
theorem setScriptSource_tristate_witness :
    setScriptSourceTrace
        { backendOk with
          clResult := { stack_update_needs_step_in := true, stack_modified := false },
          fetchFramesResult := Except.ok [4, 5] }
      = ([Output.request "changelive" ReqArg.changeliveArgs,
          Output.armNextBreak,
          Output.request "continue" ReqArg.stepActionCapIn],
         some (sendResponseWithCallStackTrace
           { backendOk with
             clResult := { stack_update_needs_step_in := true, stack_modified := false },
             fetchFramesResult := Except.ok [4, 5] })) ∧
    sendResponseWithCallStackTrace
        { backendOk with
          clResult := { stack_update_needs_step_in := true, stack_modified := false },
          fetchFramesResult := Except.ok [4, 5] }
      = [Output.fetchFrames,
         Output.doneCall none (some (ResultVal.ssResponse [4, 5]
           { stack_update_needs_step_in := true, stack_modified := false }))] := by
  have h := (setScriptSource_tristate
    { backendOk with
      clResult := { stack_update_needs_step_in := true, stack_modified := false },
      fetchFramesResult := Except.ok [4, 5] } rfl).2.2 rfl rfl
  exact ⟨h.1, h.2.2 [4, 5] rfl⟩

/-- C6 (corrected): evaluateOnCallFrame never propagates a backend error as
the error result of the call.  Every truthy backend error, a transport
failure included, is converted to an inspector error value and returned as a
success result with the thrown flag set true; the code cannot distinguish a
thrown expression from a transport failure, both arrive as the err callback
argument. -/
theorem evaluate_errors_wrapped_as_success (b : DebuggerBackend) (s : String)
    (he : b.evalErr = some s) (hs : s ≠ "") :
    evaluateOnCallFrameTrace b
      = [Output.request "evaluate" ReqArg.evaluateReq,
         Output.doneCall none
           (some (ResultVal.evalResult (InspectorValue.fromError s) true))] ∧
    List.countP isErrDoneCall (evaluateOnCallFrameTrace b) = 0 := by
  have ht : optStrTruthy (some s) = true := by
    simp [optStrTruthy, hs]
  constructor
  · simp [evaluateOnCallFrameTrace, he, ht]
  · simp [evaluateOnCallFrameTrace, he, ht, isErrDoneCall, List.countP_cons]

/-- Witness for C6: a concrete thrown-expression message comes back as a
success result wrapping the converted error with the thrown flag true. -/
theorem evaluate_errors_wrapped_as_success_witness :
    evaluateOnCallFrameTrace
        { backendOk with evalErr := some "ReferenceError: x is not defined" }
      = [Output.request "evaluate" ReqArg.evaluateReq,
         Output.doneCall none
           (some (ResultVal.evalResult
             (InspectorValue.fromError "ReferenceError: x is not defined") true))] ∧
    List.countP isErrDoneCall
        (evaluateOnCallFrameTrace
          { backendOk with evalErr := some "ReferenceError: x is not defined" }) = 0 :=
  evaluate_errors_wrapped_as_success
    { backendOk with evalErr := some "ReferenceError: x is not defined" }
    "ReferenceError: x is not defined" rfl (by decide)

/-- Counterexample for C6 as stated: a backend transport failure (a closed
connection) is not propagated as the error result of the call; the call
completes with a null error and a success result wrapping the converted
failure message, thrown flag true. -/
theorem evaluate_transport_error_not_propagated :
    evaluateOnCallFrameTrace { backendOk with evalErr := some "connection closed" }
      = [Output.request "evaluate" ReqArg.evaluateReq,
         Output.doneCall none
           (some (ResultVal.evalResult
             (InspectorValue.fromError "connection closed") true))] ∧
    List.countP isErrDoneCall
        (evaluateOnCallFrameTrace
          { backendOk with evalErr := some "connection closed" }) = 0 :=
  ⟨rfl, rfl⟩
